import Mathlib

set_option maxRecDepth 40000

/-!
Verification of the slack-reminder-bot scheduling utility (`src/main.rs`).

The program is a single-file Rust utility: it loads a bearer token and a
channel id from the environment, parses two six-field cron expressions
("0 0 14 * * SUN" and "0 0 22 * * SUN"), and spawns one schedule-runner
loop per expression.  Each runner repeatedly pulls the next occurrence
from the cron iterator, sleeps until it, and posts a JSON message to the
Slack API, logging failures without stopping.

Timestamps are modelled as seconds since the Unix epoch (UTC).  The cron
calculation and the JSON serialization are performed by external crates
(`cron`, `serde_json`); those parts are modelled from the specification,
as marked on the individual definitions.
-/

/-- Modelled from the spec: the parsed form of a six-field cron-style
recurrence expression (seconds, minutes, hours, day-of-month, month,
day-of-week), produced by the external cron crate, which is not part of
this repository's source.  A field is a list of allowed values; for the
day-of-month and day-of-week fields `none` denotes a wildcard, so that the
or-convention between the two restricted day fields can be expressed. -/
structure CronExpr where
  seconds : List Nat
  minutes : List Nat
  hours : List Nat
  daysOfMonth : Option (List Nat)
  months : List Nat
  daysOfWeek : Option (List Nat)

deriving instance DecidableEq for CronExpr

/-- Day of week of a day count since 1970-01-01 (a Thursday); 0 denotes Sunday. -/
def dayOfWeek (z : Nat) : Nat := (z + 4) % 7

/-- Civil calendar date (year, month, day) of a day count since 1970-01-01,
by the standard days-from-civil inversion over 400-year eras. -/
def civilFromDays (z : Nat) : Nat × Nat × Nat :=
  let zs := z + 719468
  let era := zs / 146097
  let doe := zs % 146097
  let yoe := (doe - doe / 1460 + doe / 36524 - doe / 146096) / 365
  let y := yoe + era * 400
  let doy := doe - (365 * yoe + yoe / 4 - yoe / 100)
  let mp := (5 * doy + 2) / 153
  let d := doy - (153 * mp + 2) / 5 + 1
  let m := if mp < 10 then mp + 3 else mp - 9
  (if m ≤ 2 then y + 1 else y, m, d)

/-- Does day `z` (days since the epoch) satisfy the date fields of the
expression?  Month must be allowed; for the two day fields the common cron
convention applies: a wildcard imposes nothing, and when both are
restricted a day matching either field is allowed. -/
def dayMatches (e : CronExpr) (z : Nat) : Bool :=
  let c := civilFromDays z
  e.months.contains c.2.1 &&
    (match e.daysOfMonth, e.daysOfWeek with
     | none, none => true
     | some dl, none => dl.contains c.2.2
     | none, some wl => wl.contains (dayOfWeek z)
     | some dl, some wl => dl.contains c.2.2 || wl.contains (dayOfWeek z))

/-- Does the timestamp `t` (seconds since the epoch) satisfy every field
constraint of the expression? -/
def includes (e : CronExpr) (t : Nat) : Bool :=
  let q := t % 86400
  e.hours.contains (q / 3600) &&
    e.minutes.contains (q % 3600 / 60) &&
    e.seconds.contains (q % 60) &&
    dayMatches e (t / 86400)

/-- All candidate timestamps of day `z` built from the time-of-day fields. -/
def timesOfDay (e : CronExpr) (z : Nat) : List Nat :=
  e.hours.flatMap fun h =>
    e.minutes.flatMap fun m =>
      e.seconds.map fun s => z * 86400 + h * 3600 + m * 60 + s

/-- Search horizon of the occurrence search, in days (more than four years,
enough for any satisfiable yearly pattern including Feb 29). -/
def searchDays : Nat := 1500

/-- Candidate timestamps of `k` consecutive days starting at day `z`. -/
def candidateTimes (e : CronExpr) : Nat → Nat → List Nat
  | _, 0 => []
  | z, k + 1 => timesOfDay e z ++ candidateTimes e (z + 1) k

/-- Modelled from the spec: the Recurrence Calculator's next-occurrence
operation (the cron crate's `Schedule`, not part of this repository's
source).  Yields the first candidate timestamp strictly after `tfrom`
within the search horizon that satisfies all field constraints, or `none`
when the schedule is exhausted. -/
def next (e : CronExpr) (tfrom : Nat) : Option Nat :=
  (candidateTimes e (tfrom / 86400) searchDays).find?
    fun t => decide (tfrom < t) && includes e t

/-- The sequence `upcoming(t0)`: element `n` is the `(n+1)`-st occurrence
strictly after `t0`, each obtained from the previous by `next`. -/
def occurrenceSeq (e : CronExpr) (t0 : Nat) : Nat → Option Nat
  | 0 => next e t0
  | n + 1 => (occurrenceSeq e t0 n).bind (next e)

theorem next_spec {e : CronExpr} {tfrom t : Nat} (h : next e tfrom = some t) :
    tfrom < t ∧ includes e t = true := by
  have hp := List.find?_some h
  rw [Bool.and_eq_true, decide_eq_true_iff] at hp
  exact hp

/-- The daily-midnight expression "0 0 0 * * *", used as a small concrete
schedule in witnesses. -/
def dailyMidnight : CronExpr :=
  ⟨[0], [0], [0], none, [1, 2, 3, 4, 5, 6, 7, 8, 9, 10, 11, 12], none⟩

example : next dailyMidnight 50 = some 86400 := by decide

/-- Outcome of one attempted HTTP send, at the runner's boundary: either a
response with a status code and an optionally readable body, or a
transport-level error (`reqwest::Error`), as distinguished by the `match`
at src/main.rs:119-137. -/
inductive SendOutcome where
  | response (status : Nat) (body : Option String)
  | transportErr (msg : String)

deriving instance DecidableEq for SendOutcome

/-- Observable events of one runner loop, one constructor per console line
or await point of `run_schedule` (src/main.rs:91-142). -/
inductive RunEvent where
  | scheduledAt (t : Int)
  | pastSkip
  | slept (d : Nat)
  | sendAttempt
  | sentOk
  | sendFailed (body : String)
  | transportError (msg : String)
  | exhausted

deriving instance DecidableEq for RunEvent

/-- The status test `response.status().is_success()` (src/main.rs:127):
true exactly for the 2xx class, 200 ≤ status < 300. -/
def is_success (status : Nat) : Bool := 200 ≤ status && status < 300

/-- Classification of a send outcome by the runner (src/main.rs:126-136):
a 2xx response is a success without the body being read; a non-2xx
response has its body read and logged, an unreadable body defaulting to
the empty string (`unwrap_or_default`); a transport error is logged with
its description. -/
def classifySend : SendOutcome → RunEvent
  | .response status body =>
    if is_success status then .sentOk else .sendFailed (body.getD "")
  | .transportErr msg => .transportError msg

/-- The conversion `chrono::Duration::to_std` (src/main.rs:103): fails
exactly when the duration is negative. -/
def to_std (d : Int) : Option Nat :=
  if d < 0 then none else some d.toNat

/-- One iteration of the `run_schedule` loop body (src/main.rs:100-141),
given the occurrence pulled from the iterator (`none` when exhausted), the
wall clock `now` sampled at src/main.rs:101, and the outcome of the send
if one is attempted.  Returns the events of the iteration and whether the
loop continues. -/
def loopIter (occ : Option Int) (now : Int) (send : SendOutcome) :
    List RunEvent × Bool :=
  match occ with
  | none => ([.exhausted], false)
  | some datetime =>
    match to_std (datetime - now) with
    | none => ([.pastSkip], true)
    | some d =>
      ([.scheduledAt datetime, .slept d, .sendAttempt, classifySend send], true)

/-- The `run_schedule` loop (src/main.rs:91-142) over an explicit trace of
per-iteration environments (wall clock at the top of the iteration, send
outcome).  The iterator created once at src/main.rs:98 is threaded as the
previous instant `prev`; each iteration pulls `next e prev`, exactly as
the cron crate's `ScheduleIterator` advances from its last yield. -/
def run_schedule (e : CronExpr) :
    Nat → List (Nat × SendOutcome) → List RunEvent
  | _, [] => []
  | prev, (now, send) :: rest =>
    match next e prev with
    | none => [.exhausted]
    | some t =>
      let r := loopIter (some (t : Int)) (now : Int) send
      r.1 ++ (if r.2 then run_schedule e t rest else [])

/-- Modelled from the spec: the runner as §4.2 step 1 words it, where each
iteration requests the next occurrence from the calculator relative to
the current wall-clock time, stated for comparison with `run_schedule`. -/
def run_schedule_fresh (e : CronExpr) :
    List (Nat × SendOutcome) → List RunEvent
  | [] => []
  | (now, send) :: rest =>
    match next e now with
    | none => [.exhausted]
    | some t =>
      let r := loopIter (some (t : Int)) (now : Int) send
      r.1 ++ (if r.2 then run_schedule_fresh e rest else [])

/-- The occurrence pulled from the iterator in each iteration of
`run_schedule` (the loop continues after every send outcome, so every
iteration with a remaining input pulls once). -/
def pulledOccurrences (e : CronExpr) :
    Nat → List (Nat × SendOutcome) → List Nat
  | _, [] => []
  | prev, _ :: rest =>
    match next e prev with
    | none => []
    | some t => t :: pulledOccurrences e t rest

theorem loopIter_continue (dt now : Int) (send : SendOutcome) :
    (loopIter (some dt) now send).2 = true := by
  rcases h : to_std (dt - now) with _ | d <;> simp [loopIter, h]

/-- The fixed reminder text (src/main.rs:32). -/
def reminder_text : String := "This is your scheduled reminder!"

/-- The first cron expression string (src/main.rs:36). -/
def cron_expr_2pm : String := "0 0 14 * * SUN"

/-- The second cron expression string (src/main.rs:37). -/
def cron_expr_10pm : String := "0 0 22 * * SUN"

/-- Modelled from the spec: the parse of "0 0 14 * * SUN" under the
six-field grammar of §4.1 (`Schedule::from_str` of the cron crate is not
repository code): second 0, minute 0, hour 14, any day of month, any
month, Sundays. -/
def schedule_2pm : CronExpr :=
  ⟨[0], [0], [14], none, [1, 2, 3, 4, 5, 6, 7, 8, 9, 10, 11, 12], some [0]⟩

/-- Modelled from the spec: the parse of "0 0 22 * * SUN", identical to
`schedule_2pm` except for the hour field. -/
def schedule_10pm : CronExpr :=
  ⟨[0], [0], [22], none, [1, 2, 3, 4, 5, 6, 7, 8, 9, 10, 11, 12], some [0]⟩

/-- The environment lookups at startup (src/main.rs:23-26): `env::var`
followed by `expect` with the quoted message; the token is read first, so
its absence is reported even when the channel is also absent. -/
def startupEnv (env : String → Option String) :
    Except String (String × String) :=
  match env "SLACK_BOT_TOKEN" with
  | none => .error "SLACK_BOT_TOKEN must be set in the environment"
  | some tok =>
    match env "SLACK_CHANNEL_ID" with
    | none => .error "SLACK_CHANNEL_ID must be set in the environment"
    | some ch => .ok (tok, ch)

/-- Configuration of one spawned runner: the arguments `main` passes to
`run_schedule` (src/main.rs:60-81). -/
structure RunnerCfg where
  sched : CronExpr
  token : String
  channel : String
  text : String

deriving instance DecidableEq for RunnerCfg

/-- The startup path of `main` (src/main.rs:18-81): read the environment,
and only on success construct the two runner configurations, both from
the single token, channel and reminder text (src/main.rs:50-57). -/
def mainConfigs (env : String → Option String) :
    Except String (RunnerCfg × RunnerCfg) :=
  (startupEnv env).map fun p =>
    (⟨schedule_2pm, p.1, p.2, reminder_text⟩,
     ⟨schedule_10pm, p.1, p.2, reminder_text⟩)

/-- The two runner tasks spawned by `main` (src/main.rs:60-81): each task
runs its own `run_schedule` loop on its own inputs; the pair of traces is
built independently, one component per task. -/
def spawnBoth (e1 : CronExpr) (t1 : Nat) (i1 : List (Nat × SendOutcome))
    (e2 : CronExpr) (t2 : Nat) (i2 : List (Nat × SendOutcome)) :
    List RunEvent × List RunEvent :=
  (run_schedule e1 t1 i1, run_schedule e2 t2 i2)

/-- Hex digit used in JSON `\u00XX` escapes of control characters. -/
def hexDigit (n : Nat) : Char :=
  if n < 10 then Char.ofNat (48 + n) else Char.ofNat (87 + n)

/-- Modelled from the spec: JSON string-character escaping as performed by
serde_json, which is not repository code: quote and backslash are
backslash-escaped, control characters below 0x20 use their short escapes
or `\u00XX`, every other character stands for itself. -/
def escapeChar (ch : Char) : List Char :=
  if ch = '"' then ['\\', '"']
  else if ch = '\\' then ['\\', '\\']
  else if ch = Char.ofNat 8 then ['\\', 'b']
  else if ch = Char.ofNat 9 then ['\\', 't']
  else if ch = Char.ofNat 10 then ['\\', 'n']
  else if ch = Char.ofNat 12 then ['\\', 'f']
  else if ch = Char.ofNat 13 then ['\\', 'r']
  else if ch.toNat < 32 then
    ['\\', 'u', '0', '0', hexDigit (ch.toNat / 16), hexDigit (ch.toNat % 16)]
  else [ch]

/-- Escape every character of a string for inclusion in a JSON string. -/
def escapeString (s : String) : String :=
  ⟨s.data.flatMap escapeChar⟩

/-- A JSON string literal: escaped content between double quotes. -/
def jsonString (s : String) : String :=
  "\"" ++ escapeString s ++ "\""

/-- Characters that JSON escaping leaves unchanged: not a quote, not a
backslash, not a control character. -/
def isPlainJsonChar (ch : Char) : Bool :=
  ch ≠ '"' && ch ≠ '\\' && 32 ≤ ch.toNat

/-- Modelled from the spec: serde's derived serialization of
`SlackMessage` (src/main.rs:11-15) as serialized by `.json(&message)`
(src/main.rs:122): a JSON object with the string fields `channel` and
`text` in declaration order. -/
def serialize_SlackMessage (channel text : String) : String :=
  "\x7b\"channel\":" ++ jsonString channel ++
    ",\"text\":" ++ jsonString text ++ "\x7d"

theorem escapeChar_plain {ch : Char} (h : isPlainJsonChar ch = true) :
    escapeChar ch = [ch] := by
  rw [isPlainJsonChar, Bool.and_eq_true, Bool.and_eq_true] at h
  obtain ⟨⟨h1, h2⟩, h3⟩ := h
  rw [decide_eq_true_iff] at h1 h2 h3
  have hlt : ¬ ch.toNat < 32 := Nat.not_lt.mpr h3
  have hb : ch ≠ Char.ofNat 8 := by rintro rfl; exact hlt (by decide)
  have ht : ch ≠ Char.ofNat 9 := by rintro rfl; exact hlt (by decide)
  have hn : ch ≠ Char.ofNat 10 := by rintro rfl; exact hlt (by decide)
  have hf : ch ≠ Char.ofNat 12 := by rintro rfl; exact hlt (by decide)
  have hr : ch ≠ Char.ofNat 13 := by rintro rfl; exact hlt (by decide)
  simp [escapeChar, h1, h2, hb, ht, hn, hf, hr, hlt]

theorem escapeString_plain {s : String}
    (h : ∀ ch ∈ s.data, isPlainJsonChar ch = true) : escapeString s = s := by
  obtain ⟨l⟩ := s
  rw [escapeString]
  congr 1
  induction l with
  | nil => rfl
  | cons ch rest ih =>
    rw [List.flatMap_cons, escapeChar_plain (h ch (by simp))]
    simp only [List.cons_append, List.nil_append]
    congr 1
    exact ih fun c hc => h c (by simp [hc])

theorem pulledOccurrences_gt (e : CronExpr) :
    ∀ (inputs : List (Nat × SendOutcome)) (prev x : Nat),
      x ∈ pulledOccurrences e prev inputs → prev < x := by
  intro inputs
  induction inputs with
  | nil => intro prev x hx; simp [pulledOccurrences] at hx
  | cons p rest ih =>
    intro prev x hx
    rcases h : next e prev with _ | t <;> simp [pulledOccurrences, h] at hx
    rcases hx with rfl | hx
    · exact (next_spec h).1
    · exact Nat.lt_trans (next_spec h).1 (ih t x hx)

theorem pulledOccurrences_pairwise (e : CronExpr) :
    ∀ (inputs : List (Nat × SendOutcome)) (prev : Nat),
      List.Pairwise (· < ·) (pulledOccurrences e prev inputs) := by
  intro inputs
  induction inputs with
  | nil => intro prev; simp [pulledOccurrences]
  | cons p rest ih =>
    intro prev
    rcases h : next e prev with _ | t <;> simp [pulledOccurrences, h]
    exact ⟨fun x hx => pulledOccurrences_gt e rest t x hx, ih t⟩

/-- Claim C1 counterexample: at an occurrence whose computed wait is
exactly zero (datetime = now), the runner does not skip: it sleeps a zero
duration and attempts the send, because `to_std` fails only for strictly
negative durations.  The claimed behaviour for wait ≤ 0 therefore fails
at the boundary wait = 0. -/
theorem run_schedule_zero_wait_sends_counterexample :
    (0 : Int) - 0 ≤ 0 ∧
    loopIter (some 0) 0 (.response 200 (some "ok")) =
      ([.scheduledAt 0, .slept 0, .sendAttempt, .sentOk], true) ∧
    RunEvent.sendAttempt ∈ (loopIter (some 0) 0 (.response 200 (some "ok"))).1 ∧
    RunEvent.pastSkip ∉ (loopIter (some 0) 0 (.response 200 (some "ok"))).1 := by
  decide

/-- Claim C1 (amended): in every iteration of the runner loop, if the
computed wait duration (occurrence minus current wall-clock time) is
strictly negative, the runner does not sleep and does not attempt the
send: it logs the past-due line and continues to the next iteration.  (At
a wait of exactly zero the runner sleeps a zero duration and sends.) -/
theorem run_schedule_past_occurrence_skips (dt now : Int) (send : SendOutcome)
    (h : dt - now < 0) :
    loopIter (some dt) now send = ([.pastSkip], true) := by
  simp [loopIter, to_std, h]

theorem run_schedule_past_occurrence_skips_witness :
    ((-1 : Int) - 0 < 0) ∧
    loopIter (some (-1)) 0 (.response 200 (some "ok")) = ([.pastSkip], true) :=
  ⟨by decide, run_schedule_past_occurrence_skips (-1) 0 (.response 200 (some "ok")) (by decide)⟩

/-- Claim C2: for every six-field recurrence expression and reference
instant, each occurrence yielded by the calculator is strictly after the
reference instant and satisfies every field constraint, and the sequence
`upcoming(t0)` is strictly increasing; in particular the inequality is
strict even when the reference instant itself satisfies the expression. -/
theorem upcoming_strictly_increasing (e : CronExpr) (tfrom t0 : Nat) :
    (∀ t, next e tfrom = some t → tfrom < t ∧ includes e t = true) ∧
    (∀ n a b, occurrenceSeq e t0 n = some a →
      occurrenceSeq e t0 (n + 1) = some b → a < b ∧ includes e b = true) := by
  constructor
  · intro t h
    exact next_spec h
  · intro n a b ha hb
    rw [occurrenceSeq, ha, Option.some_bind] at hb
    exact next_spec hb

theorem upcoming_strictly_increasing_witness :
    next dailyMidnight 50 = some 86400 ∧
    (50 < 86400 ∧ includes dailyMidnight 86400 = true) ∧
    occurrenceSeq dailyMidnight 50 0 = some 86400 ∧
    occurrenceSeq dailyMidnight 50 1 = some 172800 ∧
    (86400 < 172800 ∧ includes dailyMidnight 172800 = true) ∧
    includes dailyMidnight 86400 = true ∧ 50 < 86400 :=
  have h1 : next dailyMidnight 50 = some 86400 := by decide
  have h2 : occurrenceSeq dailyMidnight 50 0 = some 86400 := by decide
  have h3 : occurrenceSeq dailyMidnight 50 1 = some 172800 := by decide
  ⟨h1, (upcoming_strictly_increasing dailyMidnight 50 50).1 86400 h1, h2, h3,
   (upcoming_strictly_increasing dailyMidnight 50 50).2 0 86400 172800 h2 h3,
   by decide, by decide⟩


/-- Claim C5 counterexample: the runner does not request each occurrence
fresh relative to the current wall-clock time.  The iterator is created
once (src/main.rs:98) and advances from its previous yield: for the daily
midnight schedule created at time 0, when the second iteration starts at
wall-clock 200000 the runner awaits the stale occurrence 172800 (already
past, hence the skip line), whereas requesting fresh from the calculator
at 200000 yields 259200 and a timely send; the two traces differ. -/
theorem run_schedule_stale_iterator_counterexample :
    run_schedule dailyMidnight 0
        [(50, .response 200 (some "ok")), (200000, .response 200 (some "ok"))] =
      [.scheduledAt 86400, .slept 86350, .sendAttempt, .sentOk, .pastSkip] ∧
    run_schedule_fresh dailyMidnight
        [(50, .response 200 (some "ok")), (200000, .response 200 (some "ok"))] =
      [.scheduledAt 86400, .slept 86350, .sendAttempt, .sentOk,
       .scheduledAt 259200, .slept 59200, .sendAttempt, .sentOk] ∧
    ¬ run_schedule dailyMidnight 0
        [(50, .response 200 (some "ok")), (200000, .response 200 (some "ok"))] =
      run_schedule_fresh dailyMidnight
        [(50, .response 200 (some "ok")), (200000, .response 200 (some "ok"))] := by
  decide

/-- Claim C5 (amended): the runner pulls each awaited occurrence from the
single iterator created once at runner start, which advances from the
previously yielded occurrence rather than from the current wall-clock
time; the pulled occurrences are strictly increasing (each pulled exactly
once), so the runner never fires twice for one logical occurrence, and an
occurrence already past when pulled is skipped by the past-due branch. -/
theorem run_schedule_pulls_strictly_increasing (e : CronExpr) (t0 : Nat)
    (inputs : List (Nat × SendOutcome)) :
    List.Pairwise (· < ·) (pulledOccurrences e t0 inputs) :=
  pulledOccurrences_pairwise e inputs t0

/-- Claim C6: for the expression "0 0 14 * * SUN" and the reference time
Saturday 2025-01-04 23:00:00 UTC (timestamp 1736031600), the first
occurrence yielded by the calculator is the next day, Sunday 2025-01-05
at 14:00:00 UTC — exactly 15 hours after the reference time. -/
theorem sunday_2pm_next_from_saturday_11pm :
    dayOfWeek (1736031600 / 86400) = 6 ∧
    1736031600 % 86400 = 23 * 3600 ∧
    next schedule_2pm 1736031600 = some 1736085600 ∧
    1736085600 = 1736031600 + 15 * 60 * 60 ∧
    dayOfWeek (1736085600 / 86400) = 0 ∧
    1736085600 % 86400 = 14 * 3600 ∧
    includes schedule_2pm 1736085600 = true := by
  decide

/-- Claim C3: a delivery failure never terminates the runner loop.  Every
iteration whose occurrence is present continues the loop whatever the
send outcome; an iteration whose occurrence is pulled successfully
prepends its events to the run over the remaining iterations, so a
subsequent occurrence still triggers a further send attempt; and a
non-success response logs the failure with the response body (empty when
unreadable). -/
theorem send_failure_does_not_terminate :
    (∀ (dt now : Int) (send : SendOutcome),
      (loopIter (some dt) now send).2 = true) ∧
    (∀ (e : CronExpr) (prev now : Nat) (send : SendOutcome)
        (rest : List (Nat × SendOutcome)) (t : Nat),
      next e prev = some t →
      run_schedule e prev ((now, send) :: rest) =
        (loopIter (some (t : Int)) (now : Int) send).1 ++
          run_schedule e t rest) ∧
    (∀ (dt now : Int) (status : Nat) (body : Option String),
      0 ≤ dt - now → is_success status = false →
      RunEvent.sendFailed (body.getD "") ∈
        (loopIter (some dt) now (.response status body)).1) := by
  refine ⟨loopIter_continue, ?_, ?_⟩
  · intro e prev now send rest t h
    simp [run_schedule, h, loopIter_continue]
  · intro dt now status body h hs
    have ht : to_std (dt - now) = some (dt - now).toNat := by
      simp [to_std, Int.not_lt.mpr h]
    simp [loopIter, ht, classifySend, hs]

theorem send_failure_does_not_terminate_witness :
    next dailyMidnight 0 = some 86400 ∧
    run_schedule dailyMidnight 0
        [(50, .response 500 (some "err")), (90000, .response 200 none)] =
      (loopIter (some 86400) 50 (.response 500 (some "err"))).1 ++
        run_schedule dailyMidnight 86400 [(90000, .response 200 none)] ∧
    (0 ≤ (86400 : Int) - 50) ∧ is_success 500 = false ∧
    RunEvent.sendFailed "err" ∈
      (loopIter (some 86400) 50 (.response 500 (some "err"))).1 :=
  have h : next dailyMidnight 0 = some 86400 := by decide
  ⟨h,
   send_failure_does_not_terminate.2.1 dailyMidnight 0 50
     (.response 500 (some "err")) [(90000, .response 200 none)] 86400 h,
   by decide, by decide,
   by
     have hm := send_failure_does_not_terminate.2.2 86400 50 500 (some "err")
       (by decide) (by decide)
     simpa using hm⟩

/-- Claim C4: for every channel and text string (of characters that JSON
escaping leaves unchanged), the serialized `SlackMessage` is exactly the
JSON object with the two string fields named `channel` and `text`, in
that fixed order. -/
theorem slack_message_serialization (c t : String)
    (hc : ∀ ch ∈ c.data, isPlainJsonChar ch = true)
    (ht : ∀ ch ∈ t.data, isPlainJsonChar ch = true) :
    serialize_SlackMessage c t =
      "\x7b\"channel\":\"" ++ c ++ "\",\"text\":\"" ++ t ++ "\"\x7d" := by
  rw [serialize_SlackMessage, jsonString, jsonString,
    escapeString_plain hc, escapeString_plain ht]
  apply String.ext
  simp only [String.data_append, List.append_assoc]
  rfl

theorem slack_message_serialization_witness :
    (∀ ch ∈ "C1".data, isPlainJsonChar ch = true) ∧
    (∀ ch ∈ "hello".data, isPlainJsonChar ch = true) ∧
    serialize_SlackMessage "C1" "hello" =
      "\x7b\"channel\":\"C1\",\"text\":\"hello\"\x7d" :=
  ⟨by decide, by decide,
   (slack_message_serialization "C1" "hello" (by decide) (by decide)).trans
     (by decide)⟩

/-- Claim C7: when the calculator produces no further occurrence, the
runner logs the exhaustion line and terminates its own loop (no further
iteration is processed), while the other spawned runner's trace is
exactly its own independent run, unaffected by the first. -/
theorem exhausted_schedule_terminates_only_runner :
    (∀ (e : CronExpr) (prev now : Nat) (send : SendOutcome)
        (rest : List (Nat × SendOutcome)),
      next e prev = none →
      run_schedule e prev ((now, send) :: rest) = [.exhausted]) ∧
    (∀ (e1 : CronExpr) (t1 : Nat) (i1 : List (Nat × SendOutcome))
        (e2 : CronExpr) (t2 : Nat) (i2 : List (Nat × SendOutcome)),
      (spawnBoth e1 t1 i1 e2 t2 i2).2 = run_schedule e2 t2 i2) := by
  constructor
  · intro e prev now send rest h
    simp [run_schedule, h]
  · intro e1 t1 i1 e2 t2 i2
    rfl

/-- The empty expression, whose candidate set is empty, as a concrete
exhausted schedule. -/
def emptySchedule : CronExpr := ⟨[], [], [], none, [], none⟩

theorem exhausted_schedule_terminates_only_runner_witness :
    next emptySchedule 0 = none ∧
    run_schedule emptySchedule 0 [(5, .response 200 none)] = [.exhausted] ∧
    (spawnBoth emptySchedule 0 [(5, .response 200 none)]
        dailyMidnight 0 [(50, .response 200 none)]).2 =
      run_schedule dailyMidnight 0 [(50, .response 200 none)] :=
  have h : next emptySchedule 0 = none := by decide
  ⟨h,
   exhausted_schedule_terminates_only_runner.1 emptySchedule 0 5
     (.response 200 none) [] h,
   exhausted_schedule_terminates_only_runner.2 emptySchedule 0
     [(5, .response 200 none)] dailyMidnight 0 [(50, .response 200 none)]⟩

/-- Claim C8: if either required environment variable is absent at
startup, `main` fails with the corresponding descriptive message and no
runner configuration is constructed; the token is checked first. -/
theorem missing_env_fatal_at_startup (env : String → Option String) :
    (env "SLACK_BOT_TOKEN" = none →
      mainConfigs env =
        .error "SLACK_BOT_TOKEN must be set in the environment") ∧
    (∀ tok, env "SLACK_BOT_TOKEN" = some tok →
      env "SLACK_CHANNEL_ID" = none →
      mainConfigs env =
        .error "SLACK_CHANNEL_ID must be set in the environment") := by
  constructor
  · intro h
    simp [mainConfigs, startupEnv, h, Except.map]
  · intro tok h1 h2
    simp [mainConfigs, startupEnv, h1, h2, Except.map]

theorem missing_env_fatal_at_startup_witness :
    ((fun _ : String => (none : Option String)) "SLACK_BOT_TOKEN" = none) ∧
    mainConfigs (fun _ => none) =
      .error "SLACK_BOT_TOKEN must be set in the environment" :=
  ⟨rfl, (missing_env_fatal_at_startup (fun _ => none)).1 rfl⟩

/-- Claim C9: the send outcome of a received response is classified solely
by the HTTP status class: the success test holds exactly for statuses 200
through 299; on success the result is the success event whatever the body
(the body is never examined); on a non-2xx status the body is read and
logged as the failure detail, defaulting to the empty string when it
cannot be read. -/
theorem send_outcome_classified_by_status_only (status : Nat)
    (body : Option String) :
    (is_success status = true ↔ 200 ≤ status ∧ status ≤ 299) ∧
    (is_success status = true →
      classifySend (.response status body) = .sentOk ∧
      ∀ b : Option String,
        classifySend (.response status body) =
          classifySend (.response status b)) ∧
    (is_success status = false →
      classifySend (.response status body) = .sendFailed (body.getD "") ∧
      classifySend (.response status none) = .sendFailed "") := by
  refine ⟨?_, ?_, ?_⟩
  · rw [is_success, Bool.and_eq_true, decide_eq_true_iff, decide_eq_true_iff]
    omega
  · intro h
    simp [classifySend, h]
  · intro h
    simp [classifySend, h]

theorem send_outcome_classified_by_status_only_witness :
    is_success 200 = true ∧
    classifySend (.response 200 (some "application error")) = .sentOk ∧
    classifySend (.response 200 (some "application error")) =
      classifySend (.response 200 none) ∧
    is_success 404 = false ∧
    classifySend (.response 404 (some "channel_not_found")) =
      .sendFailed "channel_not_found" ∧
    classifySend (.response 404 none) = .sendFailed "" :=
  have h2 := (send_outcome_classified_by_status_only 200
    (some "application error")).2.1 (by decide)
  have h4 := (send_outcome_classified_by_status_only 404
    (some "channel_not_found")).2.2 (by decide)
  ⟨by decide, h2.1, h2.2 none, by decide, h4.1, h4.2⟩

/-- Claim C10: whenever startup succeeds, the two spawned runners are
configured with identical notification content — the same token, the same
channel and the same fixed reminder text — and their parsed schedules
agree on every field except the hour: 14:00 versus 22:00 UTC, both on
Sundays. -/
theorem runners_share_notification_content (env : String → Option String)
    (r1 r2 : RunnerCfg) (h : mainConfigs env = .ok (r1, r2)) :
    r1.token = r2.token ∧ r1.channel = r2.channel ∧ r1.text = r2.text ∧
    r1.text = reminder_text ∧
    r1.sched = schedule_2pm ∧ r2.sched = schedule_10pm ∧
    schedule_2pm.hours = [14] ∧ schedule_10pm.hours = [22] ∧
    schedule_2pm.seconds = schedule_10pm.seconds ∧
    schedule_2pm.minutes = schedule_10pm.minutes ∧
    schedule_2pm.daysOfMonth = schedule_10pm.daysOfMonth ∧
    schedule_2pm.months = schedule_10pm.months ∧
    schedule_2pm.daysOfWeek = schedule_10pm.daysOfWeek ∧
    schedule_2pm.daysOfWeek = some [0] := by
  rcases h1 : env "SLACK_BOT_TOKEN" with _ | tok <;>
    rcases h2 : env "SLACK_CHANNEL_ID" with _ | ch <;>
    simp [mainConfigs, startupEnv, h1, h2, Except.map] at h
  obtain ⟨hr1, hr2⟩ := h
  subst hr1
  subst hr2
  exact ⟨rfl, rfl, rfl, rfl, rfl, rfl, rfl, rfl, rfl, rfl, rfl, rfl, rfl, rfl⟩

theorem runners_share_notification_content_witness :
    mainConfigs (fun _ => some "v") =
      .ok (⟨schedule_2pm, "v", "v", reminder_text⟩,
           ⟨schedule_10pm, "v", "v", reminder_text⟩) ∧
    (⟨schedule_2pm, "v", "v", reminder_text⟩ : RunnerCfg).token =
      (⟨schedule_10pm, "v", "v", reminder_text⟩ : RunnerCfg).token :=
  ⟨rfl,
   (runners_share_notification_content (fun _ => some "v")
     ⟨schedule_2pm, "v", "v", reminder_text⟩
     ⟨schedule_10pm, "v", "v", reminder_text⟩ rfl).1⟩
